import Mathlib

/-!
Shallow embedding of `src/ros/src/waypoint_updater/waypoint_updater.py`
(the `WaypointUpdater` ROS node) and of
`src/tl_model/DatasetHandler.py` (the `DatasetHandler` class).

Python floats are modelled as real numbers; `math.acos`, `math.cos`,
`math.sin`, `math.sqrt` become `Real.arccos`, `Real.cos`, `Real.sin`,
`Real.sqrt`.  Python exceptions are modelled with `Except PyError`:
an out-of-range list subscript is `indexError`, an attribute access on a
value lacking the attribute is `attributeError`, and `%` by zero is
`zeroDivisionError`.  Message types mirror the ROS message layouts that
the code actually dereferences (`geometry_msgs/PoseStamped`,
`styx_msgs/Lane`, `styx_msgs/Waypoint`).
-/

/-- Python exception kinds raised by the embedded code. -/
inductive PyError where
  | attributeError
  | indexError
  | zeroDivisionError
  deriving DecidableEq, Repr

namespace WU

/-- geometry_msgs/Point: the `position` field. -/
structure Position where
  x : ℝ
  y : ℝ
  z : ℝ

/-- geometry_msgs/Quaternion: the `orientation` field. -/
structure Orientation where
  x : ℝ
  y : ℝ
  z : ℝ
  w : ℝ

/-- geometry_msgs/Pose. -/
structure Pose where
  position : Position
  orientation : Orientation

/-- geometry_msgs/PoseStamped (only the `pose` field is dereferenced). -/
structure PoseStamped where
  pose : Pose

/-- geometry_msgs/Vector3 as used through `twist.twist.linear`. -/
structure Vector3 where
  x : ℝ
  y : ℝ
  z : ℝ

/-- geometry_msgs/Twist (only `linear` is dereferenced). -/
structure Twist where
  linear : Vector3

/-- geometry_msgs/TwistStamped (only `twist` is dereferenced). -/
structure TwistStamped where
  twist : Twist

/-- styx_msgs/Waypoint: `pose` and `twist`. -/
structure Waypoint where
  pose : PoseStamped
  twist : TwistStamped

/-- styx_msgs/Lane (only the `waypoints` field is dereferenced). -/
structure Lane where
  waypoints : List Waypoint

/-- `LOOKAHEAD_WPS = 50`, the number of waypoints published. -/
def LOOKAHEAD_WPS : Nat := 50

/-- Mutable state of the `WaypointUpdater` node object (`self`).
In the source, `__init__` sets `self.current_position = []`,
`self.base_waypoints = []` and `self.total_waypoints = 0`.
`base_waypoints` is modelled as `Option Lane`: `none` stands for the
initial empty Python list `[]`, which has no `.waypoints` attribute, so
dereferencing it raises `AttributeError`. -/
structure WaypointUpdater where
  current_position : List Waypoint
  base_waypoints : Option Lane
  total_waypoints : Nat

/-- The state right after `__init__` runs. -/
def initState : WaypointUpdater :=
  { current_position := [], base_waypoints := none, total_waypoints := 0 }

/-- Result quadruple of `convert_local`: the Python function returns the
tuple `x, y, theta_car, theta_waypoint`. -/
structure LocalCoords where
  x : ℝ
  y : ℝ
  theta_car : ℝ
  theta_waypoint : ℝ

/-- `WaypointUpdater.convert_local(waypoint, current_pos)`: shifts the
waypoint position by the car position and rotates by minus the car
heading; both headings are computed as `2*math.acos(orientation.w)`. -/
noncomputable def convert_local (waypoint : Waypoint) (current_pos : PoseStamped) :
    LocalCoords :=
  let x_way := waypoint.pose.pose.position.x
  let y_way := waypoint.pose.pose.position.y
  let x_car := current_pos.pose.position.x
  let y_car := current_pos.pose.position.y
  let theta_car := 2 * Real.arccos current_pos.pose.orientation.w
  let x_shift := x_way - x_car
  let y_shift := y_way - y_car
  let theta_waypoint := 2 * Real.arccos waypoint.pose.pose.orientation.w
  { x := x_shift * Real.cos (0 - theta_car) - y_shift * Real.sin (0 - theta_car),
    y := x_shift * Real.sin (0 - theta_car) + y_shift * Real.cos (0 - theta_car),
    theta_car := theta_car,
    theta_waypoint := theta_waypoint }

/-- The loop guard of `pose_cb`:
`x > 0.00 and math.cos(theta_waypoint - theta_car) > 0.707`. -/
def isAhead (current_pos : PoseStamped) (wp : Waypoint) : Prop :=
  0 < (convert_local wp current_pos).x ∧
    (0.707 : ℝ) < Real.cos ((convert_local wp current_pos).theta_waypoint -
      (convert_local wp current_pos).theta_car)

open Classical in
/-- The scan of the `for i in range(len(self.base_waypoints.waypoints))`
loop in `pose_cb`: index of the first waypoint, in route order from 0,
satisfying the guard `isAhead`; `none` when the loop falls through. -/
noncomputable def findForward (current_pos : PoseStamped) :
    List Waypoint → Option Nat
  | [] => none
  | wp :: rest =>
    if isAhead current_pos wp then some 0
    else (findForward current_pos rest).map Nat.succ

/-- The inner `for j in range(LOOKAHEAD_WPS)` loop of `pose_cb`, building
`final_waypoints_list` entry by entry.  Python evaluates
`j_mod = i+j%self.total_waypoints`, i.e. `i + (j % total)` (the `%` binds
tighter than `+`), then subscripts the base list.  `j` is the loop
variable, `n` the number of iterations left; a `%` with `total = 0`
raises `ZeroDivisionError`, a subscript past the end raises
`IndexError`, aborting the loop. -/
def buildFrom (wps : List Waypoint) (i total : Nat) :
    Nat → Nat → Except PyError (List Waypoint)
  | _, 0 => .ok []
  | j, Nat.succ n =>
    if total = 0 then .error .zeroDivisionError
    else
      match wps[i + j % total]? with
      | none => .error .indexError
      | some w => (buildFrom wps i total (j + 1) n).map (fun l => w :: l)

/-- `WaypointUpdater.pose_cb(msg)`.  Returns the `Lane` message passed to
`self.final_waypoints_pub.publish` (`some lane`), or `none` when the
loop falls through to `pass` without publishing, or the Python exception
raised.  Dereferencing `self.base_waypoints.waypoints` on the initial
`[]` raises `AttributeError` before anything else happens. -/
noncomputable def pose_cb (s : WaypointUpdater) (msg : PoseStamped) :
    Except PyError (Option Lane) :=
  match s.base_waypoints with
  | none => .error .attributeError
  | some base =>
    match findForward msg base.waypoints with
    | none => .ok none
    | some i =>
      (buildFrom base.waypoints i s.total_waypoints 0 LOOKAHEAD_WPS).map
        (fun l => some { waypoints := l })

/-- `pose_cb` viewed as a state transition: the Python method assigns no
attribute of `self` (it only binds local variables; even the incoming
`msg` name is shadowed by a fresh `Lane()`), so the node state after the
call is the state before it. -/
noncomputable def pose_cb_step (s : WaypointUpdater) (msg : PoseStamped) :
    WaypointUpdater × Except PyError (Option Lane) :=
  (s, pose_cb s msg)

/-- `WaypointUpdater.waypoints_cb(waypoints)`: stores the lane and its
length. -/
def waypoints_cb (s : WaypointUpdater) (waypoints : Lane) : WaypointUpdater :=
  { s with base_waypoints := some waypoints,
           total_waypoints := waypoints.waypoints.length }

/-- `WaypointUpdater.traffic_cb(msg)`: the body is `pass` — the incoming
stop-line index is discarded and the state is unchanged. -/
def traffic_cb (s : WaypointUpdater) (_msg : Int) : WaypointUpdater := s

/-- `WaypointUpdater.obstacle_cb(msg)`: the body is `pass`. -/
def obstacle_cb (s : WaypointUpdater) (_msg : Int) : WaypointUpdater := s

/-- `WaypointUpdater.get_waypoint_velocity(waypoint)`. -/
def get_waypoint_velocity (waypoint : Waypoint) : ℝ :=
  waypoint.twist.twist.linear.x

/-- Default waypoint used to give list subscripts a total reading where
the surrounding theorem hypotheses keep every index in range. -/
noncomputable def dummyWp : Waypoint :=
  { pose := { pose := { position := { x := 0, y := 0, z := 0 },
                        orientation := { x := 0, y := 0, z := 0, w := 1 } } },
    twist := { twist := { linear := { x := 0, y := 0, z := 0 } } } }

/-- Position of `waypoints[k]` as used inside `distance`. -/
noncomputable def posOf (waypoints : List Waypoint) (k : Nat) : Position :=
  (waypoints.getD k dummyWp).pose.pose.position

/-- The lambda `dl` inside `distance`:
`math.sqrt((a.x-b.x)**2 + (a.y-b.y)**2 + (a.z-b.z)**2)`. -/
noncomputable def dl (a b : Position) : ℝ :=
  Real.sqrt ((a.x - b.x) ^ 2 + (a.y - b.y) ^ 2 + (a.z - b.z) ^ 2)

/-- Loop body of `distance`: the fold state is the pair `(dist, wp1)`;
one iteration adds `dl(waypoints[wp1].pose.pose.position,
waypoints[i].pose.pose.position)` and rebinds `wp1 = i`. -/
noncomputable def distStep (waypoints : List Waypoint) (acc : ℝ × Nat) (i : Nat) :
    ℝ × Nat :=
  (acc.1 + dl (posOf waypoints acc.2) (posOf waypoints i), i)

/-- `WaypointUpdater.distance(waypoints, wp1, wp2)`: iterates
`for i in range(wp1, wp2+1)` from the state `dist = 0`. -/
noncomputable def distance (waypoints : List Waypoint) (wp1 wp2 : Nat) : ℝ :=
  ((List.range' wp1 (wp2 + 1 - wp1)).foldl (distStep waypoints) ((0 : ℝ), wp1)).1

end WU

namespace DH

/-- One `box` entry of a Bosch label record (only the fields the code
reads: `label`, `y_min`, `y_max`). -/
structure BoschBox where
  label : String
  y_min : Int
  y_max : Int

/-- One image record of the Bosch label YAML (fields `path`, `boxes`). -/
structure BoschImage where
  path : String
  boxes : List BoschBox

/-- Class attributes of `DatasetHandler`; statistics dictionary kept as
an insertion-ordered association list. -/
structure DatasetHandler where
  bosch_label_dict_valid : Bool
  bosch_label_dict : List BoschImage
  bosch_label_statistics : List (String × Nat)
  bosch_number_images : Nat
  bosch_number_labeled_traffic_lights : Nat
  bosch_image_shape : Nat × Nat × Nat

/-- The attribute values declared in the class body. -/
def initHandler : DatasetHandler :=
  { bosch_label_dict_valid := false,
    bosch_label_dict := [],
    bosch_label_statistics := [],
    bosch_number_images := 0,
    bosch_number_labeled_traffic_lights := 0,
    bosch_image_shape := (0, 0, 0) }

/-- Abstraction of the ambient filesystem and libraries:
`pathExists` is `os.path.exists`, `yamlLoad` is
`yaml.load(open(p, 'rb').read())` parsed into image records,
`abspathJoin` is `os.path.abspath(os.path.join(os.path.dirname(p), q))`,
and `imreadShape` is `cv2.imread(q).shape` (modelled total). -/
structure FsEnv where
  pathExists : String → Bool
  yamlLoad : String → List BoschImage
  abspathJoin : String → String → String
  imreadShape : String → Nat × Nat × Nat

/-- The dictionary update in the statistics loop: a label not yet among
the keys is inserted with count 1, otherwise its count is incremented. -/
def statsAdd (stats : List (String × Nat)) (label : String) :
    List (String × Nat) :=
  match stats.lookup label with
  | none => stats ++ [(label, 1)]
  | some _ => stats.map (fun p => if p.1 = label then (p.1, p.2 + 1) else p)

/-- Per-image mutation inside the loop of `read_all_bosch_labels`: the
`path` is absolutized, and under `riib` the extension and directory are
rewritten and every box is shifted down by 8 pixels. -/
def processImage (env : FsEnv) (input_yaml : String) (riib : Bool)
    (img : BoschImage) : BoschImage :=
  let p := env.abspathJoin input_yaml img.path
  if riib then
    { path := ((p.replace ".png" ".pgm").replace "rgb/train" "riib/train").replace
        "rgb/test" "riib/test",
      boxes := img.boxes.map
        (fun b => { b with y_max := b.y_max + 8, y_min := b.y_min + 8 }) }
  else
    { img with path := p }

/-- One iteration of the `for i in range(self.bosch_number_images)` loop:
mutate the image record in place, add its box count to
`bosch_number_labeled_traffic_lights`, and fold its labels into
`bosch_label_statistics`. -/
def loopStep (env : FsEnv) (input_yaml : String) (riib : Bool)
    (acc : List BoschImage × Nat × List (String × Nat)) (img : BoschImage) :
    List BoschImage × Nat × List (String × Nat) :=
  let img' := processImage env input_yaml riib img
  (acc.1 ++ [img'], acc.2.1 + img'.boxes.length,
    img'.boxes.foldl (fun st b => statsAdd st b.label) acc.2.2)

/-- `DatasetHandler.read_all_bosch_labels(input_yaml, riib)`.  Returns
the updated handler state together with the Python return value
(`none` models Python's `None`) or the exception raised.  When the YAML
path does not exist the method returns `None` before touching any
attribute.  Otherwise it stores `len(images)`, runs the mutation /
statistics loop, stores the mutated list, and only after successfully
subscripting `self.bosch_label_dict[0]` (an `IndexError` on an empty
list) stores the image shape, sets `bosch_label_dict_valid = True` and
returns the list. -/
def read_all_bosch_labels (env : FsEnv) (self : DatasetHandler)
    (input_yaml : String) (riib : Bool) :
    DatasetHandler × Except PyError (Option (List BoschImage)) :=
  if env.pathExists input_yaml = false then (self, .ok none)
  else
    let images0 := env.yamlLoad input_yaml
    let self1 := { self with bosch_number_images := images0.length }
    let folded := images0.foldl (loopStep env input_yaml riib)
      ([], self1.bosch_number_labeled_traffic_lights,
        self1.bosch_label_statistics)
    let self2 := { self1 with
      bosch_label_dict := folded.1,
      bosch_number_labeled_traffic_lights := folded.2.1,
      bosch_label_statistics := folded.2.2 }
    match self2.bosch_label_dict.head? with
    | none => (self2, .error .indexError)
    | some img0 =>
      ({ self2 with
          bosch_image_shape := env.imreadShape img0.path,
          bosch_label_dict_valid := true },
        .ok (some self2.bosch_label_dict))

/-- Concrete test filesystem: only `good.yaml` exists and it holds one
image record with no boxes. -/
def env0 : FsEnv :=
  { pathExists := fun s => s == "good.yaml",
    yamlLoad := fun _ => [{ path := "img0.png", boxes := [] }],
    abspathJoin := fun _ q => q,
    imreadShape := fun _ => (720, 1280, 3) }

end DH

namespace WU

/-- A waypoint on the plane `z = 0` at `(px, py)` with identity
orientation (`w = 1`, i.e. heading 0) and reference speed `v`. -/
noncomputable def mkWp (px py v : ℝ) : Waypoint :=
  { pose := { pose := { position := { x := px, y := py, z := 0 },
                        orientation := { x := 0, y := 0, z := 0, w := 1 } } },
    twist := { twist := { linear := { x := v, y := 0, z := 0 } } } }

/-- Vehicle pose at the origin with identity orientation (heading 0). -/
noncomputable def pose0 : PoseStamped :=
  { pose := { position := { x := 0, y := 0, z := 0 },
              orientation := { x := 0, y := 0, z := 0, w := 1 } } }

/-- The standard planar (yaw-only) unit quaternion for heading `θ`:
`w = cos(θ/2)`, `z = sin(θ/2)`, rotation about the vertical axis. -/
noncomputable def planarQuat (θ : ℝ) : Orientation :=
  { x := 0, y := 0, z := Real.sin (θ / 2), w := Real.cos (θ / 2) }

/-- Vehicle pose at the origin with planar heading `θ`. -/
noncomputable def poseYaw (θ : ℝ) : PoseStamped :=
  { pose := { position := { x := 0, y := 0, z := 0 },
              orientation := planarQuat θ } }

/-- Closed 3-waypoint route whose first qualifying waypoint (for a car
at the origin heading along +x) has index 1. -/
noncomputable def route3 : List Waypoint :=
  [mkWp (-1) 0 10, mkWp 1 0 10, mkWp 2 0 10]

/-- Node state after `waypoints_cb` delivered `route3`. -/
noncomputable def s3 : WaypointUpdater :=
  waypoints_cb initState { waypoints := route3 }

/-- Route of 51 waypoints (longer than `LOOKAHEAD_WPS`) whose first
qualifying waypoint has index 2, so the window must wrap. -/
noncomputable def route51 : List Waypoint :=
  mkWp (-1) 0 10 :: mkWp (-2) 0 10 :: List.replicate 49 (mkWp 1 0 10)

/-- Node state after `waypoints_cb` delivered `route51`. -/
noncomputable def s51 : WaypointUpdater :=
  waypoints_cb initState { waypoints := route51 }

/-- Straight 3-waypoint route ahead of the origin with distinct
reference speeds; its first qualifying waypoint has index 0, so the
window build succeeds (every index `0 + j % 3` is in range). -/
noncomputable def routeA : List Waypoint :=
  [mkWp 1 0 10, mkWp 2 0 11, mkWp 3 0 12]

/-- Node state after `waypoints_cb` delivered `routeA`. -/
noncomputable def sA : WaypointUpdater :=
  waypoints_cb initState { waypoints := routeA }

/-- Straight 3-waypoint route with uniform reference speed 10, used for
the stop-command scenario (stop index 2, two waypoints ahead of the
window start 0). -/
noncomputable def routeB : List Waypoint :=
  [mkWp 1 0 10, mkWp 2 0 10, mkWp 3 0 10]

/-- Node state after `waypoints_cb` delivered `routeB`. -/
noncomputable def sB : WaypointUpdater :=
  waypoints_cb initState { waypoints := routeB }

/-- The window `pose_cb` publishes for a 3-waypoint route with first
qualifying index 0: entry `j` is the base waypoint at subscript
`0 + j % 3`. -/
noncomputable def window3 (r : List Waypoint) : List Waypoint :=
  (List.range LOOKAHEAD_WPS).map (fun k => r.getD (k % 3) dummyWp)

/-- `convert_local` at a waypoint with identity orientation, seen from
the origin pose with identity orientation: both headings are
`2*acos(1) = 0` and the rotation is the identity. -/
lemma convert_local_mkWp (px py v : ℝ) :
    convert_local (mkWp px py v) pose0 = ⟨px, py, 0, 0⟩ := by
  simp [convert_local, mkWp, pose0, Real.arccos_one]

/-- The loop guard at such a waypoint reduces to `0 < px`. -/
lemma isAhead_mkWp (px py v : ℝ) :
    isAhead pose0 (mkWp px py v) ↔ 0 < px := by
  rw [isAhead, convert_local_mkWp]
  norm_num

open Classical in
lemma findForward_cons (cp : PoseStamped) (wp : Waypoint)
    (rest : List Waypoint) :
    findForward cp (wp :: rest) =
      if isAhead cp wp then some 0 else (findForward cp rest).map Nat.succ :=
  rfl

/-- A successful scan returns an index that carries a qualifying
waypoint and below which no waypoint qualifies. -/
lemma findForward_eq_some (cp : PoseStamped) :
    ∀ (wps : List Waypoint) (i : Nat), findForward cp wps = some i →
      ∃ w, wps[i]? = some w ∧ isAhead cp w ∧
        ∀ k w', k < i → wps[k]? = some w' → ¬ isAhead cp w' := by
  intro wps
  induction wps with
  | nil => intro i h; simp [findForward] at h
  | cons wp rest ih =>
    intro i h
    rw [findForward_cons] at h
    by_cases hw : isAhead cp wp
    · rw [if_pos hw] at h
      obtain rfl : (0 : Nat) = i := Option.some.inj h
      exact ⟨wp, by simp, hw, fun k w' hk => absurd hk (by omega)⟩
    · rw [if_neg hw] at h
      cases hrest : findForward cp rest with
      | none => rw [hrest] at h; simp at h
      | some i' =>
        rw [hrest] at h
        rw [Option.map_some'] at h
        obtain rfl : i'.succ = i := Option.some.inj h
        obtain ⟨w, hget, hah, hmin⟩ := ih i' hrest
        refine ⟨w, by simpa using hget, hah, ?_⟩
        intro k w' hk hgetk
        match k with
        | 0 =>
          rw [List.getElem?_cons_zero] at hgetk
          obtain rfl : wp = w' := Option.some.inj hgetk
          exact hw
        | Nat.succ k' =>
          rw [List.getElem?_cons_succ] at hgetk
          exact hmin k' w' (by omega) hgetk

/-- Elementwise description of a successful window build: entry `m`
holds the base waypoint at subscript `i + (j + m) % total`. -/
lemma buildFrom_ok_elem (wps : List Waypoint) (i total : Nat) :
    ∀ (n j : Nat) (l : List Waypoint),
      buildFrom wps i total j n = .ok l →
      l.length = n ∧ ∀ m, m < n → l[m]? = wps[i + (j + m) % total]? := by
  intro n
  induction n with
  | zero =>
    intro j l h
    rw [buildFrom] at h
    obtain rfl : ([] : List Waypoint) = l := Except.ok.inj h
    exact ⟨rfl, fun m hm => absurd hm (by omega)⟩
  | succ n ih =>
    intro j l h
    rw [buildFrom] at h
    by_cases ht : total = 0
    · rw [if_pos ht] at h; simp at h
    · rw [if_neg ht] at h
      cases hget : wps[i + j % total]? with
      | none => rw [hget] at h; simp at h
      | some w =>
        rw [hget] at h
        cases hrec : buildFrom wps i total (j + 1) n with
        | error e => rw [hrec] at h; simp [Except.map] at h
        | ok l' =>
          rw [hrec] at h
          simp only [Except.map] at h
          obtain rfl : w :: l' = l := Except.ok.inj h
          obtain ⟨hlen, helem⟩ := ih (j + 1) l' hrec
          refine ⟨by simp [hlen], ?_⟩
          intro m hm
          match m with
          | 0 => simpa using hget.symm
          | Nat.succ m' =>
            rw [List.getElem?_cons_succ]
            have hstep := helem m' (by omega)
            have harg : j + 1 + m' = j + m'.succ := by omega
            rw [harg] at hstep
            exact hstep

/-- When some loop iteration's subscript is out of range (and `total`
is nonzero), the window build raises `IndexError`. -/
lemma buildFrom_oob (wps : List Waypoint) (i total : Nat) (ht : total ≠ 0) :
    ∀ (n j : Nat), (∃ k, k < n ∧ wps.length ≤ i + (j + k) % total) →
      buildFrom wps i total j n = .error .indexError := by
  intro n
  induction n with
  | zero => intro j ⟨k, hk, _⟩; omega
  | succ n ih =>
    intro j ⟨k, hk, hoob⟩
    rw [buildFrom, if_neg ht]
    cases hget : wps[i + j % total]? with
    | none => rfl
    | some w =>
      have hlt : i + j % total < wps.length := (List.getElem?_eq_some.mp hget).1
      match k with
      | 0 => simp at hoob; omega
      | Nat.succ k' =>
        have : buildFrom wps i total (j + 1) n = .error .indexError :=
          ih (j + 1) ⟨k', by omega, by
            have : j + 1 + k' = j + (k' + 1) := by omega
            rw [this]; exact hoob⟩
        rw [this]
        rfl

/-- When every loop iteration's subscript is in range (and `total` is
nonzero), the window build succeeds. -/
lemma buildFrom_ok_exists (wps : List Waypoint) (i total : Nat) (ht : total ≠ 0) :
    ∀ (n j : Nat), (∀ k, k < n → i + (j + k) % total < wps.length) →
      ∃ l, buildFrom wps i total j n = .ok l := by
  intro n
  induction n with
  | zero => exact fun j _ => ⟨[], rfl⟩
  | succ n ih =>
    intro j hin
    obtain ⟨l', hl'⟩ := ih (j + 1) (fun k hk => by
      have : j + 1 + k = j + (k + 1) := by omega
      rw [this]; exact hin (k + 1) (by omega))
    have hlt : i + j % total < wps.length := by
      have := hin 0 (by omega)
      simpa using this
    refine ⟨wps[i + j % total] :: l', ?_⟩
    rw [buildFrom, if_neg ht, List.getElem?_eq_getElem hlt, hl']
    rfl

/-- `pose_cb` on the freshly initialized state: dereferencing
`.waypoints` on the initial `[]` raises `AttributeError`. -/
lemma pose_cb_none {s : WaypointUpdater} {msg : PoseStamped}
    (hb : s.base_waypoints = none) :
    pose_cb s msg = .error .attributeError := by
  simp only [pose_cb, hb]

/-- `pose_cb` when the scan falls through: the method hits `pass`,
publishing nothing. -/
lemma pose_cb_noqual {s : WaypointUpdater} {msg : PoseStamped} {base : Lane}
    (hb : s.base_waypoints = some base)
    (hf : findForward msg base.waypoints = none) :
    pose_cb s msg = .ok none := by
  simp only [pose_cb, hb, hf]

/-- Evaluation of `pose_cb` once the scan result is known. -/
lemma pose_cb_eval {s : WaypointUpdater} {msg : PoseStamped} {base : Lane}
    {i : Nat} (hb : s.base_waypoints = some base)
    (hf : findForward msg base.waypoints = some i) :
    pose_cb s msg =
      (buildFrom base.waypoints i s.total_waypoints 0 LOOKAHEAD_WPS).map
        (fun l => some { waypoints := l }) := by
  simp only [pose_cb, hb, hf]

/-- Inversion of a publishing run of `pose_cb`: a route was loaded, the
scan found a first qualifying index, and the window build succeeded. -/
lemma pose_cb_ok_some {s : WaypointUpdater} {msg : PoseStamped} {lane : Lane}
    (h : pose_cb s msg = .ok (some lane)) :
    ∃ base i, s.base_waypoints = some base ∧
      findForward msg base.waypoints = some i ∧
      buildFrom base.waypoints i s.total_waypoints 0 LOOKAHEAD_WPS =
        .ok lane.waypoints := by
  cases hb : s.base_waypoints with
  | none => rw [pose_cb_none hb] at h; simp at h
  | some base =>
    cases hf : findForward msg base.waypoints with
    | none => rw [pose_cb_noqual hb hf] at h; simp at h
    | some i =>
      rw [pose_cb_eval hb hf] at h
      cases hbld : buildFrom base.waypoints i s.total_waypoints 0 LOOKAHEAD_WPS with
      | error e => rw [hbld] at h; simp [Except.map] at h
      | ok l =>
        rw [hbld] at h
        simp only [Except.map] at h
        obtain rfl : ({ waypoints := l } : Lane) = lane :=
          Option.some.inj (Except.ok.inj h)
        exact ⟨base, i, rfl, hf, hbld⟩

/-- On `route3` the scan skips the waypoint behind the car and stops at
index 1. -/
lemma findForward_route3 : findForward pose0 route3 = some 1 := by
  rw [route3, findForward_cons, if_neg, findForward_cons, if_pos]
  · rfl
  · exact (isAhead_mkWp 1 0 10).mpr (by norm_num)
  · rw [isAhead_mkWp]; norm_num

/-- On `route51` the scan skips the two waypoints behind the car and
stops at index 2. -/
lemma findForward_route51 : findForward pose0 route51 = some 2 := by
  rw [route51, findForward_cons, if_neg, findForward_cons, if_neg,
    List.replicate_succ, findForward_cons, if_pos]
  · rfl
  · exact (isAhead_mkWp 1 0 10).mpr (by norm_num)
  · rw [isAhead_mkWp]; norm_num
  · rw [isAhead_mkWp]; norm_num

/-- On `routeA` the very first waypoint qualifies. -/
lemma findForward_routeA : findForward pose0 routeA = some 0 := by
  rw [routeA, findForward_cons, if_pos]
  exact (isAhead_mkWp 1 0 10).mpr (by norm_num)

/-- On `routeB` the very first waypoint qualifies. -/
lemma findForward_routeB : findForward pose0 routeB = some 0 := by
  rw [routeB, findForward_cons, if_pos]
  exact (isAhead_mkWp 1 0 10).mpr (by norm_num)

/-- `route51` has 51 waypoints. -/
lemma route51_length : route51.length = 51 := by
  simp [route51]

/-- A full run of `pose_cb` on a freshly loaded 3-waypoint route whose
first qualifying index is 0: the published window is `window3 r`. -/
lemma pose_cb_run3 (r : List Waypoint) (hr : r.length = 3)
    (hfw : findForward pose0 r = some 0) :
    pose_cb (waypoints_cb initState { waypoints := r }) pose0 =
      .ok (some { waypoints := window3 r }) := by
  have hb : (waypoints_cb initState { waypoints := r }).base_waypoints =
      some { waypoints := r } := rfl
  have ht : (waypoints_cb initState { waypoints := r }).total_waypoints = 3 := hr
  obtain ⟨l, hl⟩ := buildFrom_ok_exists r 0
    (waypoints_cb initState { waypoints := r }).total_waypoints
    (by rw [ht]; omega) LOOKAHEAD_WPS 0
    (by intro k _; rw [ht, hr]; omega)
  obtain ⟨hlen, helem⟩ := buildFrom_ok_elem r 0
    (waypoints_cb initState { waypoints := r }).total_waypoints
    LOOKAHEAD_WPS 0 l hl
  have hlw : l = window3 r := by
    apply List.ext_getElem?
    intro n
    by_cases hn : n < LOOKAHEAD_WPS
    · have he := helem n hn
      rw [ht] at he
      simp only [Nat.zero_add] at he
      rw [he, window3, List.getElem?_map, List.getElem?_range hn,
        Option.map_some']
      have hlt : n % 3 < r.length := by rw [hr]; omega
      rw [List.getElem?_eq_getElem hlt, List.getD_eq_getElem?_getD,
        List.getElem?_eq_getElem hlt]
      rfl
    · rw [List.getElem?_eq_none (by rw [hlen]; omega),
        List.getElem?_eq_none (by simp [window3]; omega)]
  rw [pose_cb_eval hb hfw, hl, hlw]
  rfl

/-- The concrete publish on `routeA`. -/
lemma pose_cb_sA_run :
    pose_cb sA pose0 = .ok (some { waypoints := window3 routeA }) :=
  pose_cb_run3 routeA rfl findForward_routeA

/-- The concrete publish on `routeB`. -/
lemma pose_cb_sB_run :
    pose_cb sB pose0 = .ok (some { waypoints := window3 routeB }) :=
  pose_cb_run3 routeB rfl findForward_routeB

/-- The self-distance term contributed by the first loop iteration of
`distance` is zero. -/
lemma dl_self (a : Position) : dl a a = 0 := by
  simp [dl]

/-- Unrolling the tail of the `distance` loop: starting from previous
index `p`, the iterations over `p+1 .. p+n` accumulate the consecutive
segment lengths. -/
lemma distance_tail (wps : List Waypoint) :
    ∀ (n p : Nat) (d : ℝ),
      ((List.range' (p + 1) n).foldl (distStep wps) (d, p)).1 =
        d + ∑ k in Finset.range n, dl (posOf wps (p + k)) (posOf wps (p + k + 1)) := by
  intro n
  induction n with
  | zero => intro p d; simp
  | succ n ih =>
    intro p d
    rw [List.range'_succ (p + 1) n 1, List.foldl_cons]
    have hstep : distStep wps (d, p) (p + 1) =
        (d + dl (posOf wps p) (posOf wps (p + 1)), p + 1) := rfl
    rw [hstep, ih (p + 1) _]
    rw [Finset.sum_range_succ' (fun k => dl (posOf wps (p + k)) (posOf wps (p + k + 1))) n]
    have harg : ∀ k : Nat, p + 1 + k = p + (k + 1) := by intro k; omega
    simp only [harg]
    ring_nf
    simp [add_comm, add_assoc, add_left_comm]

end WU

namespace DH

/-- The image list accumulated by the statistics loop is the processed
image list appended to the accumulator. -/
lemma loop_fst (env : FsEnv) (y : String) (riib : Bool) :
    ∀ (l : List BoschImage) (a : List BoschImage) (c : Nat)
      (st : List (String × Nat)),
      ((l.foldl (loopStep env y riib) (a, c, st)).1 =
        a ++ l.map (processImage env y riib)) := by
  intro l
  induction l with
  | nil => intro a c st; simp
  | cons img rest ih =>
    intro a c st
    rw [List.foldl_cons]
    have hx := ih (loopStep env y riib (a, c, st) img).1
      (loopStep env y riib (a, c, st) img).2.1
      (loopStep env y riib (a, c, st) img).2.2
    have h1 : (loopStep env y riib (a, c, st) img).1 =
        a ++ [processImage env y riib img] := rfl
    rw [h1] at hx
    have hx' : (List.foldl (loopStep env y riib)
        (loopStep env y riib (a, c, st) img) rest).1 =
        a ++ [processImage env y riib img] ++
          List.map (processImage env y riib) rest := hx
    rw [hx', List.map_cons]
    simp

end DH

namespace WU

/-- Claim C2: the claim says `pose_cb` before any route load is a
silent no-op.  On the code it is not: `__init__` sets
`self.base_waypoints = []`, and `pose_cb` immediately dereferences
`self.base_waypoints.waypoints`, which a Python list does not have, so
every call before `waypoints_cb` raises `AttributeError` and publishes
nothing. -/
theorem c2_pose_cb_before_load_raises (msg : PoseStamped) :
    pose_cb initState msg = .error .attributeError :=
  pose_cb_none rfl

/-- Claim C8: `pose_cb` assigns no attribute of `self`, so with the
stored route and state unchanged, two calls with structurally identical
pose messages leave the state unchanged and publish structurally
identical results. -/
theorem c8_pose_cb_idempotent (s : WaypointUpdater) (msg : PoseStamped) :
    (pose_cb_step s msg).1 = s ∧
      (pose_cb_step (pose_cb_step s msg).1 msg).2 = (pose_cb_step s msg).2 :=
  ⟨rfl, rfl⟩

/-- Claim C1: on the closed 3-waypoint route `route3` with first
qualifying index 1 the claimed wrapped index `(1 + j) % 3` is always in
range (at `j = 2` it is 0), but the code computes `1 + (j % 3)`, which
reaches the out-of-range subscript 3, so `pose_cb` raises `IndexError`
and publishes no wrapped window at all. -/
theorem c1_window_wrap_bug :
    pose_cb s3 pose0 = .error .indexError ∧
      (1 + 2) % route3.length = 0 ∧ 1 + 2 % route3.length = 3 := by
  refine ⟨?_, by simp [route3], by simp [route3]⟩
  have hb : s3.base_waypoints = some { waypoints := route3 } := rfl
  have ht : s3.total_waypoints = 3 := rfl
  have hoob : buildFrom route3 1 s3.total_waypoints 0 LOOKAHEAD_WPS =
      .error .indexError := by
    refine buildFrom_oob route3 1 s3.total_waypoints (by rw [ht]; omega)
      LOOKAHEAD_WPS 0 ⟨2, by decide, ?_⟩
    rw [ht]
    have hlen : route3.length = 3 := rfl
    omega
  simp [pose_cb_eval hb findForward_route3, hoob, Except.map]

/-- Claim C7: with `route51` (51 waypoints, more than `LOOKAHEAD_WPS`)
loaded and the first qualifying index 2, the subscript
`i + (j % total)` reaches `2 + 49 = 51 ≥ 51`, an out-of-bounds access:
the `IndexError` branch of `pose_cb` is reachable. -/
theorem c7_out_of_bounds_reachable :
    route51.length = 51 ∧ LOOKAHEAD_WPS < route51.length ∧
      pose_cb s51 pose0 = .error .indexError := by
  have hlen : route51.length = 51 := route51_length
  refine ⟨hlen, by rw [hlen]; norm_num [LOOKAHEAD_WPS], ?_⟩
  have hb : s51.base_waypoints = some { waypoints := route51 } := rfl
  have ht : s51.total_waypoints = 51 := by
    simp [s51, waypoints_cb, initState, route51]
  have hoob : buildFrom route51 2 s51.total_waypoints 0 LOOKAHEAD_WPS =
      .error .indexError := by
    exact buildFrom_oob route51 2 s51.total_waypoints (by rw [ht]; omega)
      LOOKAHEAD_WPS 0
      ⟨49, by norm_num [LOOKAHEAD_WPS], by rw [ht, hlen]⟩
  simp [pose_cb_eval hb findForward_route51, hoob, Except.map]

/-- Claim C3: the claim says `theta_car` recovers every planar heading
`θ ∈ (−π, π]`, but `2*acos(w)` loses the sign: for the pose encoding
heading `−π/2` the code computes `+π/2`. -/
theorem c3_theta_car_negative_heading :
    (convert_local (mkWp 1 0 10) (poseYaw (-(Real.pi / 2)))).theta_car =
        Real.pi / 2 ∧
      Real.pi / 2 ≠ -(Real.pi / 2) := by
  constructor
  · show 2 * Real.arccos (Real.cos (-(Real.pi / 2) / 2)) = Real.pi / 2
    have h4 : -(Real.pi / 2) / 2 = -(Real.pi / 4) := by ring
    rw [h4, Real.cos_neg, Real.arccos_cos (by positivity)
      (by linarith [Real.pi_pos])]
    ring
  · intro h
    have := Real.pi_pos
    linarith

/-- Claim C4: the claim says an active stop command forces a
non-increasing speed profile that is 0 at the stop index.  The code's
`traffic_cb` is `pass`: delivering a stop command at index 2 (two
waypoints ahead of the window start 0) changes nothing, and the
published speed at position 2 is still the reference speed 10, not 0. -/
theorem c4_stop_command_ignored :
    traffic_cb sB 2 = sB ∧
      pose_cb (traffic_cb sB 2) pose0 =
        .ok (some { waypoints := window3 routeB }) ∧
      (window3 routeB)[2]? = some (mkWp 3 0 10) ∧
      get_waypoint_velocity (mkWp 3 0 10) = 10 ∧ (10 : ℝ) ≠ 0 := by
  refine ⟨rfl, pose_cb_sB_run, ?_, rfl, by norm_num⟩
  rw [window3, List.getElem?_map, List.getElem?_range (by decide),
    Option.map_some']
  rfl

/-- Claim C5: whenever `pose_cb` publishes a window, the window starts
at the waypoint with the smallest index `i` (scanning from 0) whose
local forward coordinate is strictly positive and whose heading-match
cosine exceeds 0.707 (`isAhead` is exactly that guard). -/
theorem c5_first_qualifying_start (s : WaypointUpdater) (msg : PoseStamped)
    (base lane : Lane) (hb : s.base_waypoints = some base)
    (h : pose_cb s msg = .ok (some lane)) :
    ∃ i, findForward msg base.waypoints = some i ∧
      (∃ w, base.waypoints[i]? = some w ∧ isAhead msg w) ∧
      (∀ k w', k < i → base.waypoints[k]? = some w' → ¬ isAhead msg w') ∧
      lane.waypoints.head? = base.waypoints[i]? := by
  obtain ⟨base', i, hb', hf, hbld⟩ := pose_cb_ok_some h
  obtain rfl : base = base' := Option.some.inj (hb.symm.trans hb')
  obtain ⟨w, hw, hah, hmin⟩ := findForward_eq_some msg base.waypoints i hf
  obtain ⟨hlen, helem⟩ :=
    buildFrom_ok_elem base.waypoints i s.total_waypoints LOOKAHEAD_WPS 0
      lane.waypoints hbld
  have h0 := helem 0 (by decide)
  simp only [Nat.add_zero, Nat.zero_mod, Nat.zero_add] at h0
  exact ⟨i, hf, ⟨w, hw, hah⟩, hmin,
    (List.head?_eq_getElem? lane.waypoints).trans h0⟩

/-- Witness for C5: with `routeA` loaded and the car at the origin the
publish succeeds, and the published window starts at index 0, the least
qualifying index. -/
theorem c5_witness :
    pose_cb sA pose0 = .ok (some { waypoints := window3 routeA }) ∧
      ∃ i, findForward pose0 routeA = some i ∧
        (∃ w, routeA[i]? = some w ∧ isAhead pose0 w) ∧
        (∀ k w', k < i → routeA[k]? = some w' → ¬ isAhead pose0 w') ∧
        (window3 routeA).head? = routeA[i]? :=
  ⟨pose_cb_sA_run,
    c5_first_qualifying_start sA pose0 { waypoints := routeA }
      { waypoints := window3 routeA } rfl pose_cb_sA_run⟩

/-- Claim C6: with no stop command implemented, every published window
entry is the base-route waypoint at subscript `i + (j % total)` itself,
so its stored reference speed is carried unchanged. -/
theorem c6_cruise_velocity (s : WaypointUpdater) (msg : PoseStamped)
    (base lane : Lane) (hb : s.base_waypoints = some base)
    (h : pose_cb s msg = .ok (some lane)) :
    ∃ i, findForward msg base.waypoints = some i ∧
      lane.waypoints.length = LOOKAHEAD_WPS ∧
      ∀ m wpub wbase, lane.waypoints[m]? = some wpub →
        base.waypoints[i + m % s.total_waypoints]? = some wbase →
        get_waypoint_velocity wpub = get_waypoint_velocity wbase := by
  obtain ⟨base', i, hb', hf, hbld⟩ := pose_cb_ok_some h
  obtain rfl : base = base' := Option.some.inj (hb.symm.trans hb')
  obtain ⟨hlen, helem⟩ :=
    buildFrom_ok_elem base.waypoints i s.total_waypoints LOOKAHEAD_WPS 0
      lane.waypoints hbld
  refine ⟨i, hf, hlen, ?_⟩
  intro m wpub wbase hpub hbase
  have hm : m < LOOKAHEAD_WPS := by
    have := (List.getElem?_eq_some.mp hpub).1
    omega
  have hel := helem m hm
  simp only [Nat.zero_add] at hel
  rw [hel] at hpub
  rw [hpub] at hbase
  rw [Option.some.inj hbase]

/-- Witness for C6: with `routeA` loaded and the car at the origin the
publish succeeds and every window entry carries the velocity of its
base waypoint. -/
theorem c6_witness :
    pose_cb sA pose0 = .ok (some { waypoints := window3 routeA }) ∧
      ∃ i, findForward pose0 routeA = some i ∧
        (window3 routeA).length = LOOKAHEAD_WPS ∧
        ∀ m wpub wbase, (window3 routeA)[m]? = some wpub →
          routeA[i + m % sA.total_waypoints]? = some wbase →
          get_waypoint_velocity wpub = get_waypoint_velocity wbase :=
  ⟨pose_cb_sA_run,
    c6_cruise_velocity sA pose0 { waypoints := routeA }
      { waypoints := window3 routeA } rfl pose_cb_sA_run⟩

/-- Claim C9: `distance` computes the cumulative Euclidean segment
length along the route: the first loop iteration contributes the zero
self-distance `dl(waypoints[wp1], waypoints[wp1])`, every later
iteration one consecutive segment. -/
theorem c9_distance_cumulative (wps : List Waypoint) (wp1 wp2 : Nat)
    (h1 : wp1 ≤ wp2) (h2 : wp2 < wps.length) :
    distance wps wp1 wp2 =
      ∑ i in Finset.Ico wp1 wp2, dl (posOf wps i) (posOf wps (i + 1)) := by
  rw [distance]
  have hn : wp2 + 1 - wp1 = (wp2 - wp1) + 1 := by omega
  rw [hn, List.range'_succ wp1 (wp2 - wp1) 1, List.foldl_cons]
  have hstep : distStep wps ((0 : ℝ), wp1) wp1 = (0, wp1) := by
    simp [distStep, dl_self]
  rw [hstep, distance_tail wps (wp2 - wp1) wp1 0]
  rw [Finset.sum_Ico_eq_sum_range
    (fun i => dl (posOf wps i) (posOf wps (i + 1))) wp1 wp2]
  simp

/-- Witness for C9: the distance from waypoint 0 to waypoint 1 of
`routeA` is the single-segment sum. -/
theorem c9_witness :
    (0 ≤ 1 ∧ 1 < routeA.length) ∧
      distance routeA 0 1 =
        ∑ i in Finset.Ico 0 1, dl (posOf routeA i) (posOf routeA (i + 1)) :=
  ⟨⟨by omega, by simp [routeA]⟩,
    c9_distance_cumulative routeA 0 1 (by omega) (by simp [routeA])⟩

end WU

namespace DH

/-- Claim C10: when the YAML path does not exist,
`read_all_bosch_labels` returns `None` and leaves every handler
attribute untouched; when the path exists and the label file is
non-empty, it returns the processed label list, stores it, and sets
`bosch_label_dict_valid` to `True`. -/
theorem c10_read_all_bosch_labels (env : FsEnv) (h : DatasetHandler)
    (p : String) (riib : Bool) :
    (env.pathExists p = false →
      read_all_bosch_labels env h p riib = (h, .ok none)) ∧
    (env.pathExists p = true → env.yamlLoad p ≠ [] →
      ∃ imgs, (read_all_bosch_labels env h p riib).2 = .ok (some imgs) ∧
        (read_all_bosch_labels env h p riib).1.bosch_label_dict_valid = true ∧
        (read_all_bosch_labels env h p riib).1.bosch_label_dict = imgs) := by
  constructor
  · intro hfalse
    rw [read_all_bosch_labels, if_pos hfalse]
  · intro htrue hne
    obtain ⟨im, rest, himgs⟩ : ∃ im rest, env.yamlLoad p = im :: rest := by
      cases hc : env.yamlLoad p with
      | nil => exact absurd hc hne
      | cons im rest => exact ⟨im, rest, rfl⟩
    have hfold := loop_fst env p riib (env.yamlLoad p) []
      h.bosch_number_labeled_traffic_lights h.bosch_label_statistics
    rw [himgs] at hfold
    refine ⟨[] ++ List.map (processImage env p riib) (im :: rest), ?_, ?_, ?_⟩ <;>
      rw [read_all_bosch_labels, if_neg (by simp [htrue])] <;>
      simp only [himgs] <;>
      rw [hfold] <;>
      simp [List.map_cons]

end DH

namespace DH

/-- Witness for C10: under the test filesystem `env0`, reading a
missing path returns `None` with the handler untouched, and reading
`good.yaml` returns the label list and validates the dictionary. -/
theorem c10_witness :
    read_all_bosch_labels env0 initHandler "missing.yaml" false =
        (initHandler, .ok none) ∧
      ∃ imgs,
        (read_all_bosch_labels env0 initHandler "good.yaml" false).2 =
            .ok (some imgs) ∧
          (read_all_bosch_labels env0 initHandler
            "good.yaml" false).1.bosch_label_dict_valid = true ∧
          (read_all_bosch_labels env0 initHandler
            "good.yaml" false).1.bosch_label_dict = imgs :=
  ⟨(c10_read_all_bosch_labels env0 initHandler "missing.yaml" false).1
      (by decide),
    (c10_read_all_bosch_labels env0 initHandler "good.yaml" false).2
      (by decide) (by simp [env0])⟩

end DH
